import Mathlib

/-!
Shallow embedding of the E-Learning platform backend
(`Authenication` Django app: `models.py`, `views.py`, `serializers.py`,
`signals.py`, `admin.py`).

Conventions:
  - machine integers are modelled as `Nat` (Django `PositiveIntegerField`)
    or `Int` where a request field may be negative before validation;
  - `timezone.now()` is passed in as an explicit `Nat` timestamp;
  - database rows are explicit Lean structures, tables are lists;
  - a view action that returns HTTP 400 is modelled as `Option.none`;
  - `FloatField` arithmetic (`average_rating`) is modelled over `ℚ`.
-/

/-- A row of the `Lesson` table, restricted to the fields progress
resolution reads (`models.py` lines 485-551): `page_number` (unique within
a course) and `order`. -/
structure Lesson where
  pageNumber : Nat
  order : Nat
  deriving Repr, DecidableEq

/-- A row of the `UserProgressLog` table (`models.py` lines 723-762),
restricted to the per-enrollment fields the claims read: `page_number`,
`time_spent` (seconds) and `action`. -/
structure ProgressLog where
  pageNumber : Nat
  timeSpent : Nat
  act : String
  deriving Repr, DecidableEq

/-- The `Course` row fields read by enrollment progress and bookmark code:
`total_pages` (`models.py` line 227). -/
structure Course where
  totalPages : Nat
  deriving Repr, DecidableEq

/-- A row of the `CourseEnrollment` table (`models.py` lines 585-634):
mutable progress state. `completedAt` is `None`/`some timestamp`;
`currentLesson` is the weak reference to a lesson; `notes` is the
page-number-string → text JSON mapping. -/
structure Enrollment where
  currentPage : Nat
  currentLesson : Option Lesson
  pagesCompleted : Nat
  totalPagesViewed : Nat
  completedAt : Option Nat
  bookmarkedPages : List Nat
  notes : List (String × String)
  deriving Repr, DecidableEq

/-- `Lesson.objects.get(course=..., page_number=page_number)` inside
`CourseEnrollment.update_progress` (`models.py` lines 689-693): the unique
lesson with exactly this page number, if any (`unique_together
['course', 'page_number']` makes it unique). -/
def lessonExactMatch (lessons : List Lesson) (p : Nat) : Option Lesson :=
  lessons.find? (fun l => l.pageNumber = p)

/-- `Lesson.objects.filter(course=..., page_number__lte=page_number)
.order_by('-page_number').first()` (`models.py` lines 695-699): the lesson
with the greatest `page_number ≤ p`, if any. -/
def lessonNearestBelow (lessons : List Lesson) (p : Nat) : Option Lesson :=
  (lessons.filter (fun l => l.pageNumber ≤ p)).foldl
    (fun acc l =>
      match acc with
      | none => some l
      | some m => if l.pageNumber > m.pageNumber then some l else some m)
    none

/-- The `current_lesson` resolution in `update_progress` (`models.py`
lines 688-700): exact match, else nearest-below, else `None`. -/
def resolveCurrentLesson (lessons : List Lesson) (p : Nat) : Option Lesson :=
  match lessonExactMatch lessons p with
  | some l => some l
  | none => lessonNearestBelow lessons p

/-- `CourseEnrollment.update_progress(page_number, time_spent)`
(`models.py` lines 672-720), executed against course `c` with lesson set
`lessons` at time `now`. Returns the updated enrollment row together with
the `UserProgressLog` table (one `page_view` row appended). Steps, in
source order:
1. `self.current_page = page_number` (unconditional);
2. `if page_number > self.pages_completed: self.pages_completed =
   page_number`;
3. resolve `current_lesson` (exact, else nearest-below, else `None`);
4. `if page_number >= self.course.total_pages and not self.completed_at:
   self.completed_at = timezone.now()`;
5. `self.save()`; create a `page_view` log row; `self.total_pages_viewed
   += 1`; save. -/
def update_progress (c : Course) (lessons : List Lesson) (e : Enrollment)
    (logs : List ProgressLog) (now pageNumber timeSpent : Nat) :
    Enrollment × List ProgressLog :=
  let e1 := { e with currentPage := pageNumber }
  let e2 :=
    if pageNumber > e1.pagesCompleted then
      { e1 with pagesCompleted := pageNumber }
    else e1
  let e3 := { e2 with currentLesson := resolveCurrentLesson lessons pageNumber }
  let e4 :=
    if pageNumber ≥ c.totalPages ∧ e3.completedAt = none then
      { e3 with completedAt := some now }
    else e3
  let logs1 := logs ++ [⟨pageNumber, timeSpent, "page_view"⟩]
  let e5 := { e4 with totalPagesViewed := e4.totalPagesViewed + 1 }
  (e5, logs1)

/-- C3: `updateProgress` is monotonic on `pages_completed`: `current_page`
is set to the argument unconditionally, `pages_completed` never decreases,
and a call with `page_number ≤` the current `pages_completed` leaves
`pages_completed` unchanged. -/
theorem updateProgress_monotonic (c : Course) (lessons : List Lesson)
    (e : Enrollment) (logs : List ProgressLog) (now p t : Nat) :
    (update_progress c lessons e logs now p t).1.currentPage = p ∧
    e.pagesCompleted ≤ (update_progress c lessons e logs now p t).1.pagesCompleted ∧
    (p ≤ e.pagesCompleted →
      (update_progress c lessons e logs now p t).1.pagesCompleted = e.pagesCompleted) := by
  unfold update_progress
  dsimp only
  refine ⟨?_, ?_, fun hle => ?_⟩ <;>
    (split <;> split <;> simp_all <;> omega)

/-- C4: completion is a one-way transition under `update_progress`
(`models.py` lines 702-704): if `completed_at` is unset and
`page_number ≥ course.total_pages`, the call stamps `completed_at = now`;
if `completed_at` is already set, every later call preserves it exactly,
whatever the page number. -/
theorem updateProgress_completion_one_way (c : Course) (lessons : List Lesson)
    (e : Enrollment) (logs : List ProgressLog) (now p t : Nat) :
    (e.completedAt = none → p ≥ c.totalPages →
      (update_progress c lessons e logs now p t).1.completedAt = some now) ∧
    (∀ x, e.completedAt = some x →
      (update_progress c lessons e logs now p t).1.completedAt = some x) := by
  unfold update_progress
  dsimp only
  constructor
  · intro hnone hge
    split <;> split <;> simp_all
  · intro x hx
    split <;> split <;> simp_all

/-- Closed instantiation of `updateProgress_completion_one_way`: a fresh
enrollment in a 10-page course completes at page 10, and an
already-completed enrollment keeps its original `completed_at` on a later
call with page 3. -/
theorem updateProgress_completion_one_way_witness :
    (update_progress ⟨10⟩ [] ⟨1, none, 0, 0, none, [], []⟩ [] 100 10 0).1.completedAt = some 100 ∧
    (update_progress ⟨10⟩ [] ⟨10, none, 10, 1, some 100, [], []⟩ [] 200 3 0).1.completedAt = some 100 :=
  ⟨(updateProgress_completion_one_way ⟨10⟩ [] ⟨1, none, 0, 0, none, [], []⟩ [] 100 10 0).1
      rfl (by decide),
   (updateProgress_completion_one_way ⟨10⟩ [] ⟨10, none, 10, 1, some 100, [], []⟩ [] 200 3 0).2
      100 rfl⟩

/-- `hasattr(view, 'get_course')` evaluated for `CourseEnrollmentViewSet`
(`views.py` lines 168-326): the class defines `get_queryset`,
`reset_progress`, `unenroll`, `update_progress`, `bookmark` and
`add_note`, and inherits from `viewsets.ModelViewSet`; no `get_course`
attribute exists anywhere on it, so the `hasattr` test is `False`. -/
def courseEnrollmentViewSetHasGetCourse : Bool := false

/-- `ProgressUpdateSerializer` (`serializers.py` lines 153-171): field
validation (`page_number` has `min_value=1`, `time_spent` has
`min_value=0`) followed by `validate`, whose range check `page_number >
course.total_pages` runs only when the serializer's view context has a
`get_course` attribute. -/
def progressUpdateSerializerValid (viewHasGetCourse : Bool) (c : Course)
    (pageNumber timeSpent : Int) : Bool :=
  (1 ≤ pageNumber) && (0 ≤ timeSpent) &&
    (if viewHasGetCourse then pageNumber ≤ (c.totalPages : Int) else true)

/-- `CourseEnrollmentViewSet.update_progress` (`views.py` lines 235-264):
validate the request body with `ProgressUpdateSerializer` (in the context
of this view, where `hasattr(view, 'get_course')` is false); on success
call `enrollment.update_progress(page_number, time_spent)` (which appends
a `page_view` log row) and then create a second `UserProgressLog` row with
the request's `action`; on validation failure return HTTP 400 (`none`). -/
def viewUpdateProgress (c : Course) (lessons : List Lesson) (e : Enrollment)
    (logs : List ProgressLog) (now : Nat) (pageNumber timeSpent : Int)
    (act : String) : Option (Enrollment × List ProgressLog) :=
  if progressUpdateSerializerValid courseEnrollmentViewSetHasGetCourse c
      pageNumber timeSpent then
    let r := update_progress c lessons e logs now pageNumber.toNat timeSpent.toNat
    some (r.1, r.2 ++ [⟨pageNumber.toNat, timeSpent.toNat, act⟩])
  else none

/-- C1 (evaluation at the failing input): in a course with
`total_pages = 10`, the update-progress action accepts a request with
`page_number = 11` — the serializer's range check is dead code because
`CourseEnrollmentViewSet` has no `get_course` attribute — and leaves
`pages_completed = 11 > 10 = course.total_pages`, violating the claimed
invariant `pages_completed ≤ course.total_pages`. -/
theorem pagesCompleted_invariant_violated :
    viewUpdateProgress ⟨10⟩ [] ⟨1, none, 0, 0, none, [], []⟩ [] 100 11 5 "page_view" =
      some (⟨11, none, 11, 1, some 100, [], []⟩,
            [⟨11, 5, "page_view"⟩, ⟨11, 5, "page_view"⟩]) ∧
    ¬ ((11 : Nat) ≤ (Course.mk 10).totalPages) := by
  constructor
  · rfl
  · decide

/-- The `aggregate(total=Sum('time_spent'))` total over a list of progress
log rows, as used by `CourseEnrollment.time_spent` (`models.py` lines
662-670) and the dashboard total (`views.py` lines 377-379). -/
def sumTimeSpent (logs : List ProgressLog) : Nat :=
  (logs.map (fun l => l.timeSpent)).sum

/-- C10: every successful update-progress API call appends exactly two
`UserProgressLog` rows — one `page_view` row from
`CourseEnrollment.update_progress` and one with the request's action from
the view — both carrying the request's `time_spent`, so any
`Sum('time_spent')` aggregate over the enrollment's logs grows by twice
the submitted `time_spent`. -/
theorem viewUpdateProgress_double_log (c : Course) (lessons : List Lesson)
    (e : Enrollment) (logs : List ProgressLog) (now : Nat)
    (p t : Int) (act : String) (hp : 1 ≤ p) (ht : 0 ≤ t) :
    viewUpdateProgress c lessons e logs now p t act =
      some ((update_progress c lessons e logs now p.toNat t.toNat).1,
            logs ++ [⟨p.toNat, t.toNat, "page_view"⟩, ⟨p.toNat, t.toNat, act⟩]) ∧
    sumTimeSpent (logs ++ [⟨p.toNat, t.toNat, "page_view"⟩, ⟨p.toNat, t.toNat, act⟩]) =
      sumTimeSpent logs + 2 * t.toNat := by
  constructor
  · unfold viewUpdateProgress progressUpdateSerializerValid
      courseEnrollmentViewSetHasGetCourse
    simp only [if_true, decide_eq_true_eq]
    rw [if_pos]
    · unfold update_progress
      dsimp only
      simp [List.append_assoc]
    · simp [hp, ht]
  · simp [sumTimeSpent]
    omega

/-- Closed instantiation of `viewUpdateProgress_double_log` at a concrete
request (`page_number = 2`, `time_spent = 7`, action `quiz_complete`). -/
theorem viewUpdateProgress_double_log_witness :
    viewUpdateProgress ⟨10⟩ [] ⟨1, none, 0, 0, none, [], []⟩ [] 100 2 7 "quiz_complete" =
      some ((update_progress ⟨10⟩ [] ⟨1, none, 0, 0, none, [], []⟩ [] 100 (Int.toNat 2) (Int.toNat 7)).1,
            [] ++ [⟨Int.toNat 2, Int.toNat 7, "page_view"⟩, ⟨Int.toNat 2, Int.toNat 7, "quiz_complete"⟩]) ∧
    sumTimeSpent ([] ++ [⟨Int.toNat 2, Int.toNat 7, "page_view"⟩, ⟨Int.toNat 2, Int.toNat 7, "quiz_complete"⟩]) =
      sumTimeSpent [] + 2 * Int.toNat 7 :=
  viewUpdateProgress_double_log ⟨10⟩ [] ⟨1, none, 0, 0, none, [], []⟩ [] 100 2 7
    "quiz_complete" (by decide) (by decide)

/-- Closed instantiation of `updateProgress_monotonic` at a concrete
enrollment with `pages_completed = 5` and a call with `page_number = 3`. -/
theorem updateProgress_monotonic_witness :
    (update_progress ⟨10⟩ [] ⟨5, none, 5, 2, none, [], []⟩ [] 100 3 7).1.currentPage = 3 ∧
    (5 : Nat) ≤ (update_progress ⟨10⟩ [] ⟨5, none, 5, 2, none, [], []⟩ [] 100 3 7).1.pagesCompleted ∧
    ((3 : Nat) ≤ 5 →
      (update_progress ⟨10⟩ [] ⟨5, none, 5, 2, none, [], []⟩ [] 100 3 7).1.pagesCompleted = 5) :=
  updateProgress_monotonic ⟨10⟩ [] ⟨5, none, 5, 2, none, [], []⟩ [] 100 3 7

/-- Database state for one course's enrollments: the set of enrolled user
ids (rows of `CourseEnrollment` for this course) and the `Course` row's
persisted `total_enrollments` counter. -/
structure EnrollDB where
  enrolledUsers : List Nat
  courseTotalEnrollments : Nat
  deriving Repr, DecidableEq

/-- The `post_save` receiver `update_course_enrollment_count`
(`signals.py` lines 30-42): when an enrollment row was just created,
recount the course's enrollment rows and write the count into the
`Course` row via a targeted `update`; on a non-create save, do nothing. -/
def update_course_enrollment_count (created : Bool) (db : EnrollDB) : EnrollDB :=
  if created then { db with courseTotalEnrollments := db.enrolledUsers.length }
  else db

/-- `Course.enroll_user(user)` (`models.py` lines 472-482), executed with
the in-memory course instance's counter `memTotal` against database state
`db` for user `u`:
`get_or_create` either finds the existing row (`created=False`: no
`post_save` signal fires, nothing is written, the existing enrollment is
returned) or inserts a new row (the `post_save` signal fires and recounts
into the DB row); on creation the method then runs
`self.total_enrollments += 1; self.save()`, writing the incremented
in-memory counter over the DB row. Returns the new in-memory counter and
the new database state. -/
def enroll_user (memTotal : Nat) (db : EnrollDB) (u : Nat) : Nat × EnrollDB :=
  if u ∈ db.enrolledUsers then
    (memTotal, db)
  else
    let db1 : EnrollDB := { db with enrolledUsers := db.enrolledUsers ++ [u] }
    let db2 := update_course_enrollment_count true db1
    (memTotal + 1, { db2 with courseTotalEnrollments := memTotal + 1 })

/-- C2: `enroll_user` is idempotent — for a user `u` not yet enrolled, two
successive calls leave exactly one enrollment row for `u`, the second call
returns the existing state unchanged (no error), and the course's
`total_enrollments` counter is incremented exactly once, on first
creation. -/
theorem enroll_user_idempotent (memTotal : Nat) (db : EnrollDB) (u : Nat)
    (h : u ∉ db.enrolledUsers) :
    (enroll_user (enroll_user memTotal db u).1 (enroll_user memTotal db u).2 u).2.enrolledUsers.count u = 1 ∧
    enroll_user (enroll_user memTotal db u).1 (enroll_user memTotal db u).2 u =
      enroll_user memTotal db u ∧
    (enroll_user memTotal db u).1 = memTotal + 1 ∧
    (enroll_user memTotal db u).2.courseTotalEnrollments = memTotal + 1 := by
  have hcount : db.enrolledUsers.count u = 0 := List.count_eq_zero.mpr h
  unfold enroll_user update_course_enrollment_count
  simp only [h, if_neg, if_pos, List.mem_append, List.mem_singleton, or_true, if_true]
  refine ⟨?_, ?_, ?_, ?_⟩ <;>
    simp_all [List.count_append, List.count_eq_zero]

/-- Closed instantiation of `enroll_user_idempotent`: user 7 enrolling
twice in a course whose accurate counter starts at 0. -/
theorem enroll_user_idempotent_witness :
    (enroll_user (enroll_user 0 ⟨[], 0⟩ 7).1 (enroll_user 0 ⟨[], 0⟩ 7).2 7).2.enrolledUsers.count 7 = 1 ∧
    enroll_user (enroll_user 0 ⟨[], 0⟩ 7).1 (enroll_user 0 ⟨[], 0⟩ 7).2 7 =
      enroll_user 0 ⟨[], 0⟩ 7 ∧
    (enroll_user 0 ⟨[], 0⟩ 7).1 = 0 + 1 ∧
    (enroll_user 0 ⟨[], 0⟩ 7).2.courseTotalEnrollments = 0 + 1 :=
  enroll_user_idempotent 0 ⟨[], 0⟩ 7 (by decide)

/-- A `Lesson` table mutation for one course: a row create or a row
delete, identified by lesson id. -/
inductive LessonEvent where
  | createLesson (i : Nat)
  | deleteLesson (i : Nat)
  deriving Repr, DecidableEq

/-- Database state for one course's lessons: the lesson row ids and the
`Course` row's persisted `total_lessons` counter. -/
structure LessonDB where
  lessonIds : List Nat
  courseTotalLessons : Nat
  deriving Repr, DecidableEq

/-- The receiver `update_course_lesson_count` (`signals.py` lines 8-15):
recount all `Lesson` rows for the course and overwrite the `Course` row's
`total_lessons` via a targeted `update`. -/
def update_course_lesson_count (db : LessonDB) : LessonDB :=
  { db with courseTotalLessons := db.lessonIds.length }

/-- One `Lesson` table mutation followed by signal dispatch, as registered
in `signals.py`: `update_course_lesson_count` is decorated only with
`@receiver(post_save, sender=Lesson)` (line 8), so a create fires the
recount; no receiver is registered on `post_delete` for `Lesson`, so a
delete changes the rows and leaves `total_lessons` untouched. -/
def lessonStep (db : LessonDB) (ev : LessonEvent) : LessonDB :=
  match ev with
  | .createLesson i => update_course_lesson_count { db with lessonIds := db.lessonIds ++ [i] }
  | .deleteLesson i => { db with lessonIds := db.lessonIds.filter (fun j => j ≠ i) }

/-- A sequence of `Lesson` creates/deletes applied in order. -/
def lessonRun (db : LessonDB) (evs : List LessonEvent) : LessonDB :=
  evs.foldl lessonStep db

/-- C5 (evaluation at the failing input): create lesson 1 and then delete
it; the live row count is 0 but `total_lessons` remains 1, because the
recount receiver is registered only on `post_save` and never fires on
delete. -/
theorem lesson_count_stale_after_delete :
    (lessonRun ⟨[], 0⟩ [.createLesson 1, .deleteLesson 1]).courseTotalLessons = 1 ∧
    (lessonRun ⟨[], 0⟩ [.createLesson 1, .deleteLesson 1]).lessonIds.length = 0 := by
  decide

/-- A row of the `CourseRating` table (`models.py` lines 777-816),
restricted to row identity and the 1-5 `rating` value. -/
structure Rating where
  rid : Nat
  value : Nat
  deriving Repr, DecidableEq

/-- A `CourseRating` table mutation for one course: a row create (with its
value) or a row delete, identified by rating id. -/
inductive RatingEvent where
  | createRating (i v : Nat)
  | deleteRating (i : Nat)
  deriving Repr, DecidableEq

/-- Database state for one course's ratings: the rating rows and the
`Course` row's persisted `average_rating`. -/
structure RatingDB where
  ratings : List Rating
  courseAverageRating : ℚ
  deriving Repr, DecidableEq

/-- The Python expression `... or 0.0`: `None` (no rows) coerces to `0.0`,
as does a falsy average of exactly `0`. -/
def pyOrZero (x : Option ℚ) : ℚ :=
  match x with
  | none => 0
  | some v => if v = 0 then 0 else v

/-- `CourseRating.objects.filter(course=...).aggregate(avg=Avg('rating'))`:
`None` over an empty row set, else the arithmetic mean. -/
def avgRating (rs : List Rating) : Option ℚ :=
  if rs.length = 0 then none
  else some ((rs.map (fun r => (r.value : ℚ))).sum / rs.length)

/-- The receiver `update_course_average_rating` (`signals.py` lines
17-28): recompute `Avg('rating') or 0.0` over the course's rating rows and
overwrite the `Course` row's `average_rating` via a targeted `update`. -/
def update_course_average_rating (db : RatingDB) : RatingDB :=
  { db with courseAverageRating := pyOrZero (avgRating db.ratings) }

/-- One `CourseRating` table mutation followed by signal dispatch:
`update_course_average_rating` is registered for both `post_save` and
`post_delete` on `CourseRating` (`signals.py` lines 17-18), so both
creates and deletes fire the recompute. -/
def ratingStep (db : RatingDB) (ev : RatingEvent) : RatingDB :=
  match ev with
  | .createRating i v =>
      update_course_average_rating { db with ratings := db.ratings ++ [⟨i, v⟩] }
  | .deleteRating i =>
      update_course_average_rating
        { db with ratings := db.ratings.filter (fun r => r.rid ≠ i) }

/-- A sequence of `CourseRating` creates/deletes applied in order, from a
fresh course (`average_rating` defaults to `0.0`, `models.py` line 242). -/
def ratingRun (db : RatingDB) (evs : List RatingEvent) : RatingDB :=
  evs.foldl ratingStep db

theorem pyOrZero_some (v : ℚ) : pyOrZero (some v) = if v = 0 then 0 else v := rfl

theorem pyOrZero_avgRating (rs : List Rating) :
    pyOrZero (avgRating rs) =
      if rs = [] then 0 else (rs.map (fun r => (r.value : ℚ))).sum / rs.length := by
  rcases rs with _ | ⟨r, rs⟩
  · rfl
  · rw [if_neg (List.cons_ne_nil r rs)]
    unfold avgRating
    rw [if_neg (by simp)]
    rw [pyOrZero_some]
    split
    · rename_i h0
      exact h0.symm
    · rfl

theorem ratingRun_inv (evs : List RatingEvent) (db : RatingDB)
    (h : db.courseAverageRating =
      if db.ratings = [] then 0
      else (db.ratings.map (fun r => (r.value : ℚ))).sum / db.ratings.length) :
    (ratingRun db evs).courseAverageRating =
      if (ratingRun db evs).ratings = [] then 0
      else ((ratingRun db evs).ratings.map (fun r => (r.value : ℚ))).sum /
        (ratingRun db evs).ratings.length := by
  induction evs generalizing db with
  | nil => exact h
  | cons ev evs ih =>
      have hstep : ∀ db2 : RatingDB, (ratingStep db2 ev).courseAverageRating =
          if (ratingStep db2 ev).ratings = [] then 0
          else ((ratingStep db2 ev).ratings.map (fun r => (r.value : ℚ))).sum /
            (ratingStep db2 ev).ratings.length := by
        intro db2
        cases ev <;>
          simp [ratingStep, update_course_average_rating, pyOrZero_avgRating]
      exact ih (ratingStep db ev) (hstep db)

/-- C6: after any sequence of `CourseRating` creates and deletes starting
from a fresh course, the course's `average_rating` equals the arithmetic
mean of the remaining rating rows, and `0` when none remain; in
particular ratings `[3, 5]` give `4`, and then deleting the rating of 3
gives `5`. -/
theorem average_rating_matches_mean (evs : List RatingEvent) :
    ((ratingRun ⟨[], 0⟩ evs).courseAverageRating =
      if (ratingRun ⟨[], 0⟩ evs).ratings = [] then 0
      else ((ratingRun ⟨[], 0⟩ evs).ratings.map (fun r => (r.value : ℚ))).sum /
        (ratingRun ⟨[], 0⟩ evs).ratings.length) ∧
    (ratingRun ⟨[], 0⟩ [.createRating 1 3, .createRating 2 5]).courseAverageRating = 4 ∧
    (ratingRun ⟨[], 0⟩ [.createRating 1 3, .createRating 2 5,
      .deleteRating 1]).courseAverageRating = 5 := by
  refine ⟨ratingRun_inv evs ⟨[], 0⟩ (by simp), ?_, ?_⟩ <;>
    norm_num [ratingRun, ratingStep, update_course_average_rating,
      pyOrZero, avgRating]

/-- Outcomes of the file-system/library calls made during `Course.save`,
supplied as explicit inputs: `pdfParsePages = none` models a PyPDF2
exception inside `get_pdf_page_count` (`models.py` lines 312-327);
`docxParagraphs` is the paragraph count read by python-docx, `none` on a
parse exception (`models.py` lines 436-455); `docxConversionPdfLen` is the
generated PDF byte length when `convert_docx_to_pdf` succeeds, `none` when
it raises (`models.py` lines 329-377). -/
structure FileEnv where
  pdfParsePages : Option Nat
  docxParagraphs : Option Nat
  docxConversionPdfLen : Option Nat
  deriving Repr, DecidableEq

/-- `Course.get_pdf_page_count` (`models.py` lines 312-327): the exact
PDF page count, or `0` when parsing raises. -/
def get_pdf_page_count (env : FileEnv) : Nat :=
  env.pdfParsePages.getD 0

/-- `Course.get_docx_page_count` (`models.py` lines 436-455): the
heuristic estimate `max(1, total_paragraphs // 10)`, or `0` when
python-docx raises. -/
def get_docx_page_count (env : FileEnv) : Nat :=
  match env.docxParagraphs with
  | some n => max 1 (n / 10)
  | none => 0

/-- The persisted `Course` row fields written by `Course.save`:
`file_type`, `total_pages`, `file_size`, plus `is_public`/`published_at`
and whether `course_file` still holds the originally uploaded DOCX. -/
structure CourseRow where
  fileType : String
  totalPages : Nat
  fileSize : Nat
  fileKeptOriginalDocx : Bool
  isPublic : Bool
  publishedAt : Option Nat
  deriving Repr, DecidableEq

/-- `Course.save` (`models.py` lines 257-310) for a NEW course (`pk is
None`) with an uploaded file, restricted to the metadata fields it writes
(slug generation and the ORM persistence calls are elided; `ext` is the
lowercased extension from `os.path.splitext`; `env` supplies the
parse/conversion outcomes; `uploadSize` is the uploaded file's size).
For `.pdf`: `file_type='pdf'`, exact page count. For `.docx`/`.doc`:
`file_type` provisionally `'pdf'` (line 289), then after the first save
the conversion is attempted; on success the stored file is replaced by
the generated PDF (`file_size = len(pdf_bytes)`) and the page count
recomputed from it; on an exception the original DOCX is kept,
`file_type='docx'`, `total_pages` from the heuristic estimate (lines
304-309). Any other extension leaves `file_type`/`total_pages` at the
new row's defaults (`''`/`0`). Nothing in this method reads or writes
`published_at`: the instance value (`None` for a new row unless set
elsewhere) is persisted unchanged. -/
def course_save_new (ext : String) (uploadSize : Nat) (env : FileEnv)
    (isPublic : Bool) (publishedAt : Option Nat) : CourseRow :=
  if ext = ".pdf" then
    { fileType := "pdf", totalPages := get_pdf_page_count env,
      fileSize := uploadSize, fileKeptOriginalDocx := false,
      isPublic := isPublic, publishedAt := publishedAt }
  else if ext = ".docx" ∨ ext = ".doc" then
    match env.docxConversionPdfLen with
    | some pdfLen =>
        { fileType := "pdf", totalPages := get_pdf_page_count env,
          fileSize := pdfLen, fileKeptOriginalDocx := false,
          isPublic := isPublic, publishedAt := publishedAt }
    | none =>
        { fileType := "docx", totalPages := get_docx_page_count env,
          fileSize := uploadSize, fileKeptOriginalDocx := true,
          isPublic := isPublic, publishedAt := publishedAt }
  else
    { fileType := "", totalPages := 0,
      fileSize := uploadSize, fileKeptOriginalDocx := false,
      isPublic := isPublic, publishedAt := publishedAt }

/-- C7 (counterexample): a course created public through the model/API
save path (`Course.save`; `published_at` is `read_only` in
`CourseSerializer`, `serializers.py` lines 78-80) ends up with
`is_public = true` and `published_at` still unset — the claimed
"`published_at` set exactly when made public" does not hold on this
path. -/
theorem published_at_not_set_on_model_save :
    (course_save_new ".pdf" 1000 ⟨some 10, none, none⟩ true none).isPublic = true ∧
    (course_save_new ".pdf" 1000 ⟨some 10, none, none⟩ true none).publishedAt = none := by
  constructor <;> rfl

/-- `CourseAdmin.save_model` (`admin.py` lines 317-323). In this module
`timezone` is bound by `from time import timezone` (`admin.py` line 11),
so it is the integer `time.timezone`, not `django.utils.timezone`:
evaluating `timezone.now()` at line 320 raises
`AttributeError` before anything is saved. Hence: when the course
`is_public` and `published_at` is falsy, the save raises
(`Except.error`); when not `is_public`, `published_at` is cleared and the
save proceeds; otherwise `published_at` is persisted unchanged. -/
def admin_save_model (isPublic : Bool) (publishedAt : Option Nat) :
    Except String (Option Nat) :=
  if isPublic ∧ publishedAt = none then
    Except.error "AttributeError: timezone is the int time.timezone and has no attribute now"
  else if ¬ isPublic then Except.ok none
  else Except.ok publishedAt

/-- C7 (amended): no code path ever sets `published_at` to a timestamp.
The model/API save path (`Course.save`, with `published_at` read-only in
`CourseSerializer`) persists the instance value unchanged for every
extension, upload and environment; the Django-admin path
(`CourseAdmin.save_model`) raises `AttributeError` on the one branch that
would stamp it (`timezone` is `time.timezone`, an `int`), clears
`published_at` when the course is saved private, and keeps an
already-set value on a public course. -/
theorem published_at_never_stamped (pa : Option Nat) (ext : String)
    (sz : Nat) (env : FileEnv) (pub : Bool) :
    (∃ msg, admin_save_model true none = Except.error msg) ∧
    admin_save_model false pa = Except.ok none ∧
    (∀ x : Nat, admin_save_model true (some x) = Except.ok (some x)) ∧
    (course_save_new ext sz env pub pa).publishedAt = pa := by
  refine ⟨⟨_, rfl⟩, by simp [admin_save_model], fun x => by simp [admin_save_model], ?_⟩
  unfold course_save_new
  split
  · rfl
  · split
    · split <;> rfl
    · rfl

/-- C8: when the uploaded file is a `.docx` whose PDF conversion raises
but whose python-docx parse succeeds with `n` paragraphs, `Course.save`
still persists the course: the row keeps the original DOCX file,
`file_type = 'docx'`, and `total_pages` equals the heuristic estimate
`max(1, n / 10)` (floor 1). -/
theorem docx_fallback_persists (sz n : Nat) (pdfPages : Option Nat)
    (env : FileEnv) (pub : Bool) (pa : Option Nat)
    (henv : env = ⟨pdfPages, some n, none⟩) :
    (course_save_new ".docx" sz env pub pa).fileType = "docx" ∧
    (course_save_new ".docx" sz env pub pa).fileKeptOriginalDocx = true ∧
    (course_save_new ".docx" sz env pub pa).totalPages = max 1 (n / 10) ∧
    1 ≤ (course_save_new ".docx" sz env pub pa).totalPages ∧
    (course_save_new ".docx" sz env pub pa).fileSize = sz := by
  subst henv
  refine ⟨rfl, rfl, rfl, ?_, rfl⟩
  show 1 ≤ max 1 (n / 10)
  exact le_max_left 1 (n / 10)

/-- Closed instantiation of `docx_fallback_persists` at a 25-paragraph
DOCX (estimate `max(1, 25 / 10) = 2`). -/
theorem docx_fallback_persists_witness :
    (course_save_new ".docx" 5000 ⟨none, some 25, none⟩ false none).fileType = "docx" ∧
    (course_save_new ".docx" 5000 ⟨none, some 25, none⟩ false none).fileKeptOriginalDocx = true ∧
    (course_save_new ".docx" 5000 ⟨none, some 25, none⟩ false none).totalPages = max 1 (25 / 10) ∧
    1 ≤ (course_save_new ".docx" 5000 ⟨none, some 25, none⟩ false none).totalPages ∧
    (course_save_new ".docx" 5000 ⟨none, some 25, none⟩ false none).fileSize = 5000 :=
  docx_fallback_persists 5000 25 none ⟨none, some 25, none⟩ false none rfl

/-- `CourseEnrollmentViewSet.bookmark` (`views.py` lines 266-298) for page
number `p` (`request.data.get('page_number')`; a missing field is `None`
and, like `0`, is falsy, so `p = 0` stands for both): 400 (`none`) when
the field is falsy; 400 when `p > course.total_pages`; if `p` is already
in `bookmarked_pages`, skip the append and the log and return the
enrollment unchanged (HTTP 200); otherwise append `p`, save, and log a
`bookmark` action (its `time_spent` takes the model default `0`). -/
def bookmark (c : Course) (e : Enrollment) (logs : List ProgressLog)
    (p : Nat) : Option (Enrollment × List ProgressLog) :=
  if p = 0 then none
  else if p > c.totalPages then none
  else if p ∈ e.bookmarkedPages then some (e, logs)
  else some ({ e with bookmarkedPages := e.bookmarkedPages ++ [p] },
             logs ++ [⟨p, 0, "bookmark"⟩])

/-- C9: `bookmark` returns 400 when `page_number > course.total_pages`;
for a page `p` within range (`1 ≤ p ≤ total_pages`) that is already
bookmarked it is a success no-op, appending no entry and no log row; and
two `bookmark` calls with the same in-range `p`, starting from a state
where `p` is not bookmarked, leave exactly one entry for `p` in
`bookmarked_pages`. -/
theorem bookmark_spec (c : Course) (e : Enrollment) (logs : List ProgressLog)
    (p : Nat) :
    (p > c.totalPages → bookmark c e logs p = none) ∧
    (1 ≤ p → p ≤ c.totalPages → p ∈ e.bookmarkedPages →
      bookmark c e logs p = some (e, logs)) ∧
    (1 ≤ p → p ≤ c.totalPages → p ∉ e.bookmarkedPages →
      ((bookmark c e logs p).bind (fun r => bookmark c r.1 r.2 p)).map
        (fun r => r.1.bookmarkedPages.count p) = some 1) := by
  refine ⟨?_, ?_, ?_⟩
  · intro hgt
    unfold bookmark
    by_cases h0 : p = 0
    · omega
    · rw [if_neg h0, if_pos hgt]
  · intro h1 hle hmem
    unfold bookmark
    rw [if_neg (by omega), if_neg (by omega), if_pos hmem]
  · intro h1 hle hnot
    have hcount : e.bookmarkedPages.count p = 0 := List.count_eq_zero.mpr hnot
    unfold bookmark
    rw [if_neg (by omega), if_neg (by omega), if_neg hnot]
    simp only [Option.bind_some, Option.some_bind]
    rw [if_neg (by omega), if_neg (by omega),
      if_pos (by simp : p ∈ e.bookmarkedPages ++ [p])]
    simp [List.count_append, hcount]

/-- Closed instantiation of `bookmark_spec` in a 10-page course: page 11
is rejected; page 4, already bookmarked, is a success no-op; and two
calls bookmarking page 5 from a fresh enrollment leave one entry. -/
theorem bookmark_spec_witness :
    bookmark ⟨10⟩ ⟨1, none, 0, 0, none, [4], []⟩ [] 11 = none ∧
    bookmark ⟨10⟩ ⟨1, none, 0, 0, none, [4], []⟩ [] 4 =
      some (⟨1, none, 0, 0, none, [4], []⟩, []) ∧
    ((bookmark ⟨10⟩ ⟨1, none, 0, 0, none, [4], []⟩ [] 5).bind
        (fun r => bookmark ⟨10⟩ r.1 r.2 5)).map
      (fun r => r.1.bookmarkedPages.count 5) = some 1 :=
  ⟨(bookmark_spec ⟨10⟩ ⟨1, none, 0, 0, none, [4], []⟩ [] 11).1 (by decide),
   (bookmark_spec ⟨10⟩ ⟨1, none, 0, 0, none, [4], []⟩ [] 4).2.1
     (by decide) (by decide) (by decide),
   (bookmark_spec ⟨10⟩ ⟨1, none, 0, 0, none, [4], []⟩ [] 5).2.2
     (by decide) (by decide) (by decide)⟩
